import Mathlib

/-!
Shallow embedding of the authentication and credential-lifecycle subsystem
of the role-based academic records portal (source files `src/routes/auth.js`,
`src/utils/helpers.js`, `src/middleware/rateLimiter.js`).

Conventions of the embedding:
* The Supabase data store is a record of in-memory tables (lists of rows);
  `.eq(...)`-filtered `update` calls become `List.map` over the rows,
  `maybeSingle` lookups become `List.find?`, inserts append a row.
* bcrypt hashing is external and salted, so the flows are parametrised by
  abstract `hash : String → String` and `cmp : String → String → Bool`
  oracles (`hashPassword` / `comparePassword`).
* `Math.random()`-driven choices are parametrised by an index-choice oracle
  `r : Nat → Nat` (JS `Math.floor(Math.random()*len)` is `r i % len`), and
  the random-comparator `Array.sort` shuffle by an arbitrary function that
  is assumed to permute its input.
* Request body fields are strings, with `""` playing the role of a missing
  or falsy field (JS `!field` is true exactly on the falsy values).
* Timestamps (`Date.now()`, ISO strings compared by `gt`) are naturals in
  milliseconds; ISO-8601 string comparison agrees with numeric comparison.
-/

/-- An HTTP JSON response: status code plus the body fields the auth routes
actually emit (`success`, `error`, `message`, and the session user echoed by
login). -/
structure Response where
  status : Nat
  success : Bool
  error : Option String
  message : Option String
deriving DecidableEq, Repr

/-- The session user constructed by `router.post('/login')`:
`{id, role, username, fullName, email, departmentId, mustChangePassword}`. -/
structure SessionUser where
  id : Nat
  role : String
  username : String
  fullName : String
  email : String
  departmentId : Option Nat
  mustChangePassword : Bool
deriving DecidableEq, Repr

/-- A row of one of the principal tables (`admins` / `teachers` / `students`).
`loginId` is the role-specific identifier column (`username`, `teacher_id`
or `student_id`). -/
structure UserRec where
  id : Nat
  loginId : String
  email : String
  full_name : String
  password_hash : String
  must_change_password : Bool
  department_id : Option Nat
deriving DecidableEq, Repr

/-- A row of the `otp_tokens` table. `created_at` is the insertion-time
column the store fills in and `verify-otp` orders by. -/
structure OTPToken where
  id : Nat
  user_type : String
  user_id : Nat
  otp_code_hash : String
  expires_at : Nat
  used : Bool
  created_at : Nat
deriving DecidableEq, Repr

/-- A row of the `activity_logs` table (inserted by `logActivity`). -/
structure LogEntry where
  user_type : String
  user_id : Nat
  action : String
  details : String
deriving DecidableEq, Repr

/-- The data store: the tables the auth subsystem touches. -/
structure DB where
  admins : List UserRec
  teachers : List UserRec
  students : List UserRec
  otp_tokens : List OTPToken
  activity_logs : List LogEntry
deriving DecidableEq, Repr

/-- `logActivity(supabase, userType, userId, action, details)`: appends a row
to `activity_logs` (best-effort in the source; the store insert itself is
modelled as succeeding). -/
def logActivity (db : DB) (userType : String) (userId : Nat)
    (action : String) (details : String) : DB :=
  { db with activity_logs := db.activity_logs ++ [⟨userType, userId, action, details⟩] }

/-- `maybeSingle` lookup of a principal row by its role-specific identifier
column (`.eq(idField, value)`). -/
def findByLoginId (table : List UserRec) (value : String) : Option UserRec :=
  table.find? (fun u => u.loginId == value)

/-- The role-to-table lookup performed by the login route: `admins` by
`username`, `teachers` by `teacher_id`, `students` by `student_id`; `none`
for any other role string. -/
def lookupUser (db : DB) (role username : String) : Option UserRec :=
  if role == "admin" then findByLoginId db.admins username
  else if role == "teacher" then findByLoginId db.teachers username
  else if role == "student" then findByLoginId db.students username
  else none

/-- Role strings accepted by the login route. -/
def validRole (role : String) : Bool :=
  role == "admin" || role == "teacher" || role == "student"

/-- `router.post('/login')` (src/routes/auth.js:9-82): field presence check,
role dispatch, principal lookup, bcrypt compare, session construction and
activity log. Returns the response, the session user stored in
`req.session.user` (if any), and the updated store. -/
def login (db : DB) (cmp : String → String → Bool)
    (role username password : String) : Response × Option SessionUser × DB :=
  if role == "" || username == "" || password == "" then
    (⟨400, false, some "Role, username, and password are required", none⟩, none, db)
  else if !validRole role then
    (⟨400, false, some "Invalid role", none⟩, none, db)
  else
    match lookupUser db role username with
    | none => (⟨401, false, some "Invalid credentials", none⟩, none, db)
    | some user =>
      if cmp password user.password_hash then
        let sessionUser : SessionUser :=
          ⟨user.id, role, user.loginId, user.full_name, user.email,
            user.department_id, user.must_change_password⟩
        (⟨200, true, none, none⟩, some sessionUser,
          logActivity db role user.id "login" user.loginId)
      else
        (⟨401, false, some "Invalid credentials", none⟩, none, db)

/-- The recovery-flow principal lookup (`forgot-password` / `verify-otp`):
`teachers` by `teacher_id` or `students` by `student_id`; the admin role and
invalid roles are rejected before this lookup is reached. -/
def lookupRecovery (db : DB) (role identifier : String) : Option UserRec :=
  if role == "teacher" then findByLoginId db.teachers identifier
  else findByLoginId db.students identifier

/-- The `otp_tokens` bulk update
`.update({used: true}).eq('user_id', uid).eq('user_type', role).eq('used', false)`:
marks every unused token of the given principal used. -/
def invalidateUnused (toks : List OTPToken) (role : String) (uid : Nat) :
    List OTPToken :=
  toks.map (fun t =>
    if t.user_id == uid && t.user_type == role && t.used == false then
      { t with used := true }
    else t)

/-- Number of unused `otp_tokens` rows for a `(user_type, user_id)` pair. -/
def countUnusedTokens (db : DB) (role : String) (uid : Nat) : Nat :=
  (db.otp_tokens.filter (fun t =>
    t.user_type == role && t.user_id == uid && t.used == false)).length

/-- `router.post('/forgot-password')` (src/routes/auth.js:150-240).
Parameters: `hash` is `hashPassword`, `otp` the code `generateOTP()`
produced, `emailOk` whether `sendOTPEmail` succeeds (it throws otherwise),
`now` is `Date.now()`, `newId`/`now` fill the store-generated `id` and
`created_at` of the inserted row. Returns the response, the updated store
and whether `sendOTPEmail` was invoked. -/
def forgotPassword (db : DB) (hash : String → String) (otp : String)
    (emailOk : Bool) (now : Nat) (newId : Nat)
    (role identifier : String) : Response × DB × Bool :=
  if role == "" || identifier == "" then
    (⟨400, false, some "Role and identifier are required", none⟩, db, false)
  else if role == "admin" then
    (⟨400, false, some "Password reset not available for admin accounts", none⟩, db, false)
  else if !(role == "teacher" || role == "student") then
    (⟨400, false, some "Invalid role", none⟩, db, false)
  else
    match lookupRecovery db role identifier with
    | none =>
      (⟨200, true, none,
        some "If the account exists, an OTP has been sent to the registered email"⟩,
        db, false)
    | some user =>
      let toks1 := invalidateUnused db.otp_tokens role user.id
      let newTok : OTPToken :=
        ⟨newId, role, user.id, hash otp, now + 10 * 60 * 1000, false, now⟩
      let db1 := { db with otp_tokens := toks1 ++ [newTok] }
      if emailOk then
        (⟨200, true, none, some "OTP has been sent to your registered email address"⟩,
          logActivity db1 role user.id "otp_requested" identifier, true)
      else
        (⟨503, false, some "Failed to send OTP email. Please contact your administrator.", none⟩,
          { db1 with otp_tokens := invalidateUnused db1.otp_tokens role user.id }, true)

/-- The `verify-otp` candidate query: unused, unexpired tokens of the
principal (`.eq('user_type').eq('user_id').eq('used', false)
.gt('expires_at', now)`), most recent first
(`.order('created_at', { ascending: false })`). -/
def otpCandidates (db : DB) (role : String) (uid : Nat) (now : Nat) :
    List OTPToken :=
  (db.otp_tokens.filter (fun t =>
      t.user_type == role && t.user_id == uid && t.used == false
        && decide (now < t.expires_at))).insertionSort
    (fun a b => b.created_at ≤ a.created_at)

/-- The principal-table password update shared by `change-password` and
`verify-otp`:
`.update({password_hash, must_change_password: false}).eq('id', uid)`. -/
def setPassword (table : List UserRec) (uid : Nat) (newHash : String) :
    List UserRec :=
  table.map (fun u =>
    if u.id == uid then
      { u with password_hash := newHash, must_change_password := false }
    else u)

/-- Applies `setPassword` to the table named by the role (the recovery flows
only reach this with role `teacher` or `student`). -/
def setPasswordRecovery (db : DB) (role : String) (uid : Nat)
    (newHash : String) : DB :=
  if role == "teacher" then
    { db with teachers := setPassword db.teachers uid newHash }
  else
    { db with students := setPassword db.students uid newHash }

/-- `router.post('/verify-otp')` (src/routes/auth.js:242-336): field and
length validation, role dispatch, principal lookup, candidate-token query,
linear bcrypt scan until the first match, then consume the token, reset the
password and log. `cmp`/`hash` are the bcrypt oracles, `now` is the clock. -/
def verifyOtp (db : DB) (cmp : String → String → Bool)
    (hash : String → String) (now : Nat)
    (role identifier otp newPassword : String) : Response × DB :=
  if role == "" || identifier == "" || otp == "" || newPassword == "" then
    (⟨400, false, some "All fields are required", none⟩, db)
  else if newPassword.length < 8 then
    (⟨400, false, some "Password must be at least 8 characters long", none⟩, db)
  else if role == "admin" then
    (⟨400, false, some "Password reset not available for admin accounts", none⟩, db)
  else if !(role == "teacher" || role == "student") then
    (⟨400, false, some "Invalid role", none⟩, db)
  else
    match lookupRecovery db role identifier with
    | none => (⟨400, false, some "Invalid credentials", none⟩, db)
    | some user =>
      let candidates := otpCandidates db role user.id now
      if candidates.isEmpty then
        (⟨400, false, some "OTP expired or invalid", none⟩, db)
      else
        match candidates.find? (fun t => cmp otp t.otp_code_hash) with
        | none => (⟨400, false, some "Invalid OTP", none⟩, db)
        | some validToken =>
          let toks1 := db.otp_tokens.map (fun t =>
            if t.id == validToken.id then { t with used := true } else t)
          let db1 := { db with otp_tokens := toks1 }
          let db2 := setPasswordRecovery db1 role user.id (hash newPassword)
          (⟨200, true, none, some "Password reset successfully"⟩,
            logActivity db2 role user.id "password_reset_via_otp" identifier)

/-- The `change-password` role-to-table ternary
`role === 'admin' ? 'admins' : role === 'teacher' ? 'teachers' : 'students'`. -/
def tableOf (db : DB) (role : String) : List UserRec :=
  if role == "admin" then db.admins
  else if role == "teacher" then db.teachers
  else db.students

/-- Writes back the table named by the same ternary. -/
def setTableOf (db : DB) (role : String) (table : List UserRec) : DB :=
  if role == "admin" then { db with admins := table }
  else if role == "teacher" then { db with teachers := table }
  else { db with students := table }

/-- `router.post('/change-password')` (src/routes/auth.js:93-148): session
check, field and length validation, current-password bcrypt compare, hash
and persist the new password, clear `must_change_password`, update the
in-memory session copy, log. Returns the response, the updated store and
the (possibly updated) session. -/
def changePassword (db : DB) (cmp : String → String → Bool)
    (hash : String → String) (sess : Option SessionUser)
    (currentPassword newPassword : String) :
    Response × DB × Option SessionUser :=
  match sess with
  | none => (⟨401, false, some "Unauthorized", none⟩, db, none)
  | some su =>
    if currentPassword == "" || newPassword == "" then
      (⟨400, false, some "Current and new passwords are required", none⟩, db, some su)
    else if newPassword.length < 8 then
      (⟨400, false, some "Password must be at least 8 characters long", none⟩, db, some su)
    else
      match (tableOf db su.role).find? (fun u => u.id == su.id) with
      | none => (⟨404, false, some "User not found", none⟩, db, some su)
      | some user =>
        if cmp currentPassword user.password_hash then
          let db1 := setTableOf db su.role
            (setPassword (tableOf db su.role) su.id (hash newPassword))
          (⟨200, true, none, some "Password changed successfully"⟩,
            logActivity db1 su.role su.id "password_changed" "",
            some { su with mustChangePassword := false })
        else
          (⟨401, false, some "Current password is incorrect", none⟩, db, some su)

/-- The character-class constants of `generatePassword`
(src/utils/helpers.js:18-21). -/
def uppercaseChars : List Char := "ABCDEFGHIJKLMNOPQRSTUVWXYZ".toList

def lowercaseChars : List Char := "abcdefghijklmnopqrstuvwxyz".toList

def numberChars : List Char := "0123456789".toList

def symbolChars : List Char := "@#$!".toList

/-- `all = uppercase + lowercase + numbers + symbols`. -/
def allChars : List Char := uppercaseChars ++ lowercaseChars ++ numberChars ++ symbolChars

/-- JS `chars[Math.floor(Math.random() * chars.length)]`: the random draw is
an oracle value `k`, reduced mod the list length (`Math.random() < 1`, so
the JS index always lies in `[0, length)` and every such index arises as
`k % length`). -/
def pick (l : List Char) (k : Nat) : Char :=
  l.getD (k % l.length) 'A'

/-- The fill loop `for (let i = 4; i < length; i++) password += all[...]`:
`count` draws from `all`, with oracle indices `i, i+1, ...`. -/
def fillChars (r : Nat → Nat) : Nat → Nat → List Char
  | _, 0 => []
  | i, count + 1 => pick allChars (r i) :: fillChars r (i + 1) count

/-- `generatePassword(length)` (src/utils/helpers.js:17-36): one guaranteed
character per class, then the fill loop, then
`password.split('').sort(() => Math.random() - 0.5).join('')`. The length is
an integer (the JS loop simply does not run when `length < 4`). `r` is the
random-draw oracle; `shuffle` embeds the random-comparator sort, which
returns some permutation of its input. -/
def generatePassword (length : Int) (r : Nat → Nat)
    (shuffle : List Char → List Char) : String :=
  let base := [pick uppercaseChars (r 0), pick lowercaseChars (r 1),
    pick numberChars (r 2), pick symbolChars (r 3)]
  String.mk (shuffle (base ++ fillChars r 4 (length - 4).toNat))

/-- An inbound request as seen by the rate-limiter key function:
`req.body.identifier` (absent allowed) and `req.ip`. -/
structure RequestInfo where
  bodyIdentifier : Option String
  ip : String
deriving DecidableEq, Repr

/-- An `express-rate-limit` configuration. -/
structure RateLimitConfig where
  windowMs : Nat
  max : Nat
  message : String
  standardHeaders : Bool
  legacyHeaders : Bool
  keyGenerator : RequestInfo → String

/-- JS `req.body.identifier || req.ip`: the identifier when present and
truthy (non-empty), otherwise the client IP. -/
def otpKeyGenerator (req : RequestInfo) : String :=
  match req.bodyIdentifier with
  | some s => if s == "" then req.ip else s
  | none => req.ip

/-- `otpRequestLimiter` (src/middleware/rateLimiter.js:3-12). -/
def otpRequestLimiter : RateLimitConfig where
  windowMs := 60 * 60 * 1000
  max := 5
  message := "Too many OTP requests. Please try again after an hour."
  standardHeaders := true
  legacyHeaders := false
  keyGenerator := otpKeyGenerator

/-- `loginLimiter` (src/middleware/rateLimiter.js:14-20); no custom key
function, so the default per-IP key applies. -/
def loginLimiter : RateLimitConfig where
  windowMs := 15 * 60 * 1000
  max := 10
  message := "Too many login attempts. Please try again after 15 minutes."
  standardHeaders := true
  legacyHeaders := false
  keyGenerator := fun req => req.ip

/-! ### Test fixtures

Concrete bcrypt oracles and store contents used by the closed witness and
counterexample theorems. `hashW` prefixes an `H`, and `cmpW` accepts exactly
the strings `hashW` would produce. -/

def cmpW : String → String → Bool := fun p h => h == "H" ++ p

def hashW : String → String := fun p => "H" ++ p

def stuW : UserRec := ⟨1, "2024001", "stu@example.edu", "Stu Dent", "HStudent@123", false, none⟩

def dbW : DB := ⟨[], [], [stuW], [], []⟩

def sessW : SessionUser := ⟨1, "student", "2024001", "Stu Dent", "stu@example.edu", none, true⟩

/-- An unused, unexpired (at `now = 0`) token for `stuW` matching code
`"123456"` under `cmpW`. -/
def tokW : OTPToken := ⟨1, "student", 1, "H123456", 600000, false, 0⟩

def dbWtok : DB := ⟨[], [], [stuW], [tokW], []⟩

/-! ### Helper lemmas about the secret generator -/

lemma pick_mem (l : List Char) (hne : l ≠ []) (k : Nat) : pick l k ∈ l := by
  have hlt : k % l.length < l.length :=
    Nat.mod_lt _ (List.length_pos.mpr hne)
  rw [pick, l.getD_eq_getElem 'A' hlt]
  exact l.getElem_mem hlt

lemma fillChars_length (r : Nat → Nat) (i count : Nat) :
    (fillChars r i count).length = count := by
  induction count generalizing i with
  | zero => rfl
  | succ n ih => simp [fillChars, ih]

lemma fillChars_mem (r : Nat → Nat) (i count : Nat) :
    ∀ c ∈ fillChars r i count, c ∈ allChars := by
  induction count generalizing i with
  | zero => simp [fillChars]
  | succ n ih =>
    intro c hc
    rcases List.mem_cons.mp hc with h | h
    · exact h ▸ pick_mem allChars (by decide) (r i)
    · exact ih (i + 1) c h

lemma mem_allChars_of_class {c : Char}
    (h : c ∈ uppercaseChars ∨ c ∈ lowercaseChars ∨ c ∈ numberChars ∨ c ∈ symbolChars) :
    c ∈ allChars := by
  simp only [allChars, List.mem_append]
  tauto

/-- The character list underlying `generatePassword` before the shuffle. -/
lemma generatePassword_toList (length : Int) (r : Nat → Nat)
    (shuffle : List Char → List Char) :
    (generatePassword length r shuffle).toList =
      shuffle ([pick uppercaseChars (r 0), pick lowercaseChars (r 1),
        pick numberChars (r 2), pick symbolChars (r 3)]
          ++ fillChars r 4 (length - 4).toNat) := rfl

/-! ### C8, C10: `generatePassword` -/

/-- C8: for every length `n ≥ 8`, `generatePassword(n)` returns a string of
length exactly `n` containing at least one uppercase letter, one lowercase
letter, one digit and one symbol from `'@#$!'`, with every character drawn
from the union of the four classes. (`r` is the random-draw oracle and
`shuffle` the random-comparator sort, which permutes its input.) -/
theorem generatePassword_all_classes (n : Int) (r : Nat → Nat)
    (shuffle : List Char → List Char) (hn : 8 ≤ n)
    (hperm : ∀ l, (shuffle l).Perm l) :
    (generatePassword n r shuffle).length = n.toNat ∧
    (∃ c ∈ (generatePassword n r shuffle).toList, c ∈ uppercaseChars) ∧
    (∃ c ∈ (generatePassword n r shuffle).toList, c ∈ lowercaseChars) ∧
    (∃ c ∈ (generatePassword n r shuffle).toList, c ∈ numberChars) ∧
    (∃ c ∈ (generatePassword n r shuffle).toList, c ∈ symbolChars) ∧
    (∀ c ∈ (generatePassword n r shuffle).toList, c ∈ allChars) := by
  have hmem : ∀ c : Char, c ∈ (generatePassword n r shuffle).toList ↔
      c ∈ [pick uppercaseChars (r 0), pick lowercaseChars (r 1),
        pick numberChars (r 2), pick symbolChars (r 3)]
          ++ fillChars r 4 (n - 4).toNat := by
    intro c
    rw [generatePassword_toList]
    exact (hperm _).mem_iff
  refine ⟨?_, ?_, ?_, ?_, ?_, ?_⟩
  · show (generatePassword n r shuffle).toList.length = n.toNat
    rw [generatePassword_toList, (hperm _).length_eq, List.length_append,
      fillChars_length]
    simp only [List.length_cons, List.length_nil]
    omega
  · exact ⟨pick uppercaseChars (r 0), (hmem _).mpr (by simp),
      pick_mem uppercaseChars (by decide) (r 0)⟩
  · exact ⟨pick lowercaseChars (r 1), (hmem _).mpr (by simp),
      pick_mem lowercaseChars (by decide) (r 1)⟩
  · exact ⟨pick numberChars (r 2), (hmem _).mpr (by simp),
      pick_mem numberChars (by decide) (r 2)⟩
  · exact ⟨pick symbolChars (r 3), (hmem _).mpr (by simp),
      pick_mem symbolChars (by decide) (r 3)⟩
  · intro c hc
    rcases List.mem_append.mp ((hmem c).mp hc) with h | h
    · simp only [List.mem_cons, List.not_mem_nil, or_false] at h
      rcases h with h | h | h | h <;> subst h <;>
        [ exact mem_allChars_of_class (Or.inl (pick_mem _ (by decide) _));
          exact mem_allChars_of_class (Or.inr (Or.inl (pick_mem _ (by decide) _)));
          exact mem_allChars_of_class (Or.inr (Or.inr (Or.inl (pick_mem _ (by decide) _))));
          exact mem_allChars_of_class (Or.inr (Or.inr (Or.inr (pick_mem _ (by decide) _))))]
    · exact fillChars_mem r 4 _ c h

/-- Witness for C8 at `n = 8` with the identity shuffle and a concrete
draw oracle. -/
theorem generatePassword_all_classes_witness :
    (generatePassword 8 (fun i => i) (fun l => l)).length = (8 : Int).toNat ∧
    (∃ c ∈ (generatePassword 8 (fun i => i) (fun l => l)).toList, c ∈ uppercaseChars) ∧
    (∃ c ∈ (generatePassword 8 (fun i => i) (fun l => l)).toList, c ∈ lowercaseChars) ∧
    (∃ c ∈ (generatePassword 8 (fun i => i) (fun l => l)).toList, c ∈ numberChars) ∧
    (∃ c ∈ (generatePassword 8 (fun i => i) (fun l => l)).toList, c ∈ symbolChars) ∧
    (∀ c ∈ (generatePassword 8 (fun i => i) (fun l => l)).toList, c ∈ allChars) :=
  generatePassword_all_classes 8 (fun i => i) (fun l => l) (by norm_num)
    (fun l => List.Perm.refl l)

/-- C10: for every requested length `n` — including `n < 4`, `n = 0` and
negative `n` — `generatePassword(n)` totally returns a string of length
`max n 4`: the four guaranteed class characters are appended before the
fill loop, which contributes `max 0 (n - 4)` further characters. -/
theorem generatePassword_length_clamped (n : Int) (r : Nat → Nat)
    (shuffle : List Char → List Char) (hperm : ∀ l, (shuffle l).Perm l) :
    (generatePassword n r shuffle).length = (max n 4).toNat := by
  show (generatePassword n r shuffle).toList.length = (max n 4).toNat
  rw [generatePassword_toList, (hperm _).length_eq, List.length_append,
    fillChars_length]
  simp only [List.length_cons, List.length_nil]
  omega

/-- Witness for C10 at the negative length `n = -3`: the result still has
length `4`, not `-3` or an error. -/
theorem generatePassword_length_clamped_witness :
    (generatePassword (-3) (fun _ => 0) (fun l => l)).length = (max (-3) 4).toNat :=
  generatePassword_length_clamped (-3) (fun _ => 0) (fun l => l)
    (fun l => List.Perm.refl l)

/-! ### C9: the OTP-request rate limiter -/

/-- C9: `otpRequestLimiter` is configured with a 60-minute window
(`60 * 60 * 1000` ms) and a quota of 5 attempts, and its key function
returns the request-body identifier when one is supplied (and truthy —
JS `||` treats the empty string as absent) and the client IP otherwise. -/
theorem otpRequestLimiter_spec :
    otpRequestLimiter.windowMs = 60 * 60 * 1000 ∧
    otpRequestLimiter.max = 5 ∧
    (∀ s ip, s ≠ "" → otpRequestLimiter.keyGenerator ⟨some s, ip⟩ = s) ∧
    (∀ ip, otpRequestLimiter.keyGenerator ⟨none, ip⟩ = ip) := by
  refine ⟨rfl, rfl, ?_, fun ip => rfl⟩
  intro s ip hs
  simp [otpRequestLimiter, otpKeyGenerator, hs]

/-- Witness for C9: a concrete request with identifier `"2024001"` is keyed
by that identifier, not by its IP. -/
theorem otpRequestLimiter_spec_witness :
    otpRequestLimiter.windowMs = 60 * 60 * 1000 ∧
    otpRequestLimiter.max = 5 ∧
    otpRequestLimiter.keyGenerator ⟨some "2024001", "10.0.0.9"⟩ = "2024001" ∧
    otpRequestLimiter.keyGenerator ⟨none, "10.0.0.9"⟩ = "10.0.0.9" :=
  ⟨otpRequestLimiter_spec.1, otpRequestLimiter_spec.2.1,
    otpRequestLimiter_spec.2.2.1 "2024001" "10.0.0.9" (by decide),
    otpRequestLimiter_spec.2.2.2 "10.0.0.9"⟩

/-! ### C1: login does not reveal account existence -/

/-- C1: for a valid role and non-empty fields, a login request whose
identifier resolves to no principal and a login request whose identifier
resolves to a principal but whose password fails the bcrypt compare produce
the literally identical outcome — the response `401 Invalid credentials`
with no session created and the store untouched. -/
theorem login_enumeration_indistinguishable (db : DB)
    (cmp : String → String → Bool) (role u1 p1 u2 p2 : String) (user : UserRec)
    (hrole : validRole role = true)
    (hu1 : u1 ≠ "") (hp1 : p1 ≠ "") (hu2 : u2 ≠ "") (hp2 : p2 ≠ "")
    (habsent : lookupUser db role u1 = none)
    (hpresent : lookupUser db role u2 = some user)
    (hwrong : cmp p2 user.password_hash = false) :
    login db cmp role u1 p1 = login db cmp role u2 p2 ∧
    login db cmp role u1 p1 =
      (⟨401, false, some "Invalid credentials", none⟩, none, db) := by
  have hrne : role ≠ "" := by
    intro h
    subst h
    simp [validRole] at hrole
  rw [login, login]
  simp [hrne, hu1, hp1, hu2, hp2, hrole, habsent, hpresent, hwrong]

/-- Witness for C1: in the fixture store, `student`-role login with an
unknown identifier and with `stuW`'s identifier plus a wrong password give
the same `401 Invalid credentials`. -/
theorem login_enumeration_indistinguishable_witness :
    login dbW cmpW "student" "nobody" "Student@123" =
      login dbW cmpW "student" "2024001" "WrongPass9" ∧
    login dbW cmpW "student" "nobody" "Student@123" =
      (⟨401, false, some "Invalid credentials", none⟩, none, dbW) :=
  login_enumeration_indistinguishable dbW cmpW "student" "nobody" "Student@123"
    "2024001" "WrongPass9" stuW (by decide) (by decide) (by decide) (by decide)
    (by decide) (by decide) (by decide) (by decide)

/-! ### C5: forgot-password for an unknown identifier -/

/-- The claim that the unknown-identifier response of forgot-password is
byte-identical to the real-account success response is false: with the
fixture store, the real-account path answers
`"OTP has been sent to your registered email address"` while the
unknown-identifier path answers
`"If the account exists, an OTP has been sent to the registered email"`. -/
theorem forgotPassword_identical_response_cex :
    (forgotPassword dbW hashW "123456" true 0 1 "student" "2024001").1 ≠
    (forgotPassword dbW hashW "123456" true 0 1 "student" "nobody").1 := by
  decide

/-- C5 (amended): a forgot-password request for an identifier that resolves
to no principal returns the generic success response (status 200,
`success = true`, message `"If the account exists, an OTP has been sent to
the registered email"`) and performs no side effects: the store is returned
unchanged (no token inserted or modified, no log row) and `sendOTPEmail` is
never invoked. The message text, however, differs from the real-account
success message `"OTP has been sent to your registered email address"`. -/
theorem forgotPassword_unknown_no_side_effects (db : DB)
    (hash : String → String) (otp : String) (emailOk : Bool) (now newId : Nat)
    (role identifier : String)
    (hrole : role = "teacher" ∨ role = "student") (hid : identifier ≠ "")
    (hnf : lookupRecovery db role identifier = none) :
    forgotPassword db hash otp emailOk now newId role identifier =
      (⟨200, true, none,
        some "If the account exists, an OTP has been sent to the registered email"⟩,
        db, false) := by
  rcases hrole with h | h <;> subst h <;>
    · rw [forgotPassword]
      simp [hid, hnf]

/-- Witness for C5's amended statement on the fixture store with an unknown
identifier. -/
theorem forgotPassword_unknown_no_side_effects_witness :
    forgotPassword dbW hashW "123456" true 0 1 "student" "nobody" =
      (⟨200, true, none,
        some "If the account exists, an OTP has been sent to the registered email"⟩,
        dbW, false) :=
  forgotPassword_unknown_no_side_effects dbW hashW "123456" true 0 1 "student"
    "nobody" (Or.inr rfl) (by decide) (by decide)

/-! ### C6: forgot-password rollback on delivery failure -/

/-- After the bulk invalidation update, no token of the targeted principal
is left unused. -/
lemma invalidateUnused_all_used (toks : List OTPToken) (role : String)
    (uid : Nat) :
    ∀ t ∈ invalidateUnused toks role uid,
      t.user_type = role → t.user_id = uid → t.used = true := by
  intro t ht hty hid
  rcases List.mem_map.mp ht with ⟨t0, _, rfl⟩
  by_cases h : (t0.user_id == uid && t0.user_type == role && t0.used == false) = true
  · rw [if_pos h]
  · rw [if_neg h] at hty hid ⊢
    cases hu : t0.used
    · exact absurd (by simp [hty, hid, hu]) h
    · rfl

lemma countUnused_invalidate (toks : List OTPToken) (role : String) (uid : Nat) :
    ((invalidateUnused toks role uid).filter (fun t =>
      t.user_type == role && t.user_id == uid && t.used == false)).length = 0 := by
  rw [List.length_eq_zero, List.filter_eq_nil_iff]
  intro t ht
  simp only [Bool.and_eq_true, beq_iff_eq, not_and]
  intro hpair hused
  rw [invalidateUnused_all_used toks role uid t ht hpair.1 hpair.2] at hused
  exact Bool.true_eq_false ▸ hused

/-- C6: when `sendOTPEmail` throws after the new token was inserted,
forgot-password answers `503` with the delivery-failure error (a response
with a status distinct from the generic anti-enumeration `200`), and the
rollback update leaves no unused token at all for that `(role, principal)`
— in particular the just-created token is marked used. -/
theorem forgotPassword_email_failure_rollback (db : DB)
    (hash : String → String) (otp : String) (now newId : Nat)
    (role identifier : String) (user : UserRec)
    (hrole : role = "teacher" ∨ role = "student") (hid : identifier ≠ "")
    (hfound : lookupRecovery db role identifier = some user) :
    (forgotPassword db hash otp false now newId role identifier).1 =
      ⟨503, false,
        some "Failed to send OTP email. Please contact your administrator.", none⟩ ∧
    countUnusedTokens
      (forgotPassword db hash otp false now newId role identifier).2.1
        role user.id = 0 ∧
    (forgotPassword db hash otp false now newId role identifier).1.status ≠ 200 := by
  have hred :
      (forgotPassword db hash otp false now newId role identifier).1 =
        ⟨503, false,
          some "Failed to send OTP email. Please contact your administrator.", none⟩ ∧
      (forgotPassword db hash otp false now newId role identifier).2.1.otp_tokens =
        invalidateUnused
          (invalidateUnused db.otp_tokens role user.id
            ++ [⟨newId, role, user.id, hash otp, now + 10 * 60 * 1000, false, now⟩])
          role user.id := by
    rcases hrole with h | h <;> subst h <;>
      simp [forgotPassword, hid, hfound]
  refine ⟨hred.1, ?_, by rw [hred.1]; decide⟩
  rw [countUnusedTokens, hred.2]
  exact countUnused_invalidate _ _ _

/-- Witness for C6 on the fixture store: delivery failure yields the `503`
response and leaves zero unused tokens for `stuW`. -/
theorem forgotPassword_email_failure_rollback_witness :
    (forgotPassword dbW hashW "123456" false 0 1 "student" "2024001").1 =
      ⟨503, false,
        some "Failed to send OTP email. Please contact your administrator.", none⟩ ∧
    countUnusedTokens
      (forgotPassword dbW hashW "123456" false 0 1 "student" "2024001").2.1
        "student" 1 = 0 ∧
    (forgotPassword dbW hashW "123456" false 0 1 "student" "2024001").1.status ≠ 200 :=
  forgotPassword_email_failure_rollback dbW hashW "123456" 0 1 "student"
    "2024001" stuW (Or.inr rfl) (by decide) (by decide)

/-! ### C7: change-password -/

lemma tableOf_setTableOf (db : DB) (role : String) (tbl : List UserRec) :
    tableOf (setTableOf db role tbl) role = tbl := by
  by_cases h1 : (role == "admin") = true <;>
    by_cases h2 : (role == "teacher") = true <;>
      simp [tableOf, setTableOf, h1, h2]

lemma tableOf_logActivity (db : DB) (role ut : String) (uid : Nat)
    (action details : String) :
    tableOf (logActivity db ut uid action details) role = tableOf db role := by
  by_cases h1 : (role == "admin") = true <;>
    by_cases h2 : (role == "teacher") = true <;>
      simp [tableOf, logActivity, h1, h2]

/-- Every row of the table that bears the updated id carries the new hash
and a cleared `must_change_password` after the `setPassword` update. -/
lemma setPassword_mem (tbl : List UserRec) (uid : Nat) (newHash : String) :
    ∀ u ∈ setPassword tbl uid newHash, u.id = uid →
      u.password_hash = newHash ∧ u.must_change_password = false := by
  intro u hu hid
  rcases List.mem_map.mp hu with ⟨u0, _, rfl⟩
  by_cases h : (u0.id == uid) = true
  · rw [if_pos h]
    exact ⟨rfl, rfl⟩
  · rw [if_neg h] at hid ⊢
    exact absurd (by simp [hid]) h

/-- C7: with an authenticated session and non-empty fields, (i) when the
principal exists, the current password verifies and `newPassword` is at
least 8 characters, change-password answers `200`, every stored row of that
principal now carries a hash that verifies `newPassword` (here: the bcrypt
oracle satisfies `cmp npw (hash npw) = true`) with `must_change_password`
cleared, and the in-memory session is updated to `mustChangePassword =
false` without re-login; (ii) a mismatched current password answers `401`;
(iii) a too-short new password answers `400`. -/
theorem changePassword_spec (db : DB) (cmp : String → String → Bool)
    (hash : String → String) (su : SessionUser) (cur npw : String)
    (hcur : cur ≠ "") (hnpw0 : npw ≠ "") :
    (∀ user, (tableOf db su.role).find? (fun u => u.id == su.id) = some user →
      8 ≤ npw.length → cmp cur user.password_hash = true →
      cmp npw (hash npw) = true →
        (changePassword db cmp hash (some su) cur npw).1 =
          ⟨200, true, none, some "Password changed successfully"⟩ ∧
        (∀ u' ∈ tableOf (changePassword db cmp hash (some su) cur npw).2.1 su.role,
          u'.id = su.id →
            u'.password_hash = hash npw ∧ cmp npw u'.password_hash = true ∧
            u'.must_change_password = false) ∧
        (changePassword db cmp hash (some su) cur npw).2.2 =
          some { su with mustChangePassword := false }) ∧
    (∀ user, (tableOf db su.role).find? (fun u => u.id == su.id) = some user →
      8 ≤ npw.length → cmp cur user.password_hash = false →
        (changePassword db cmp hash (some su) cur npw).1 =
          ⟨401, false, some "Current password is incorrect", none⟩) ∧
    (npw.length < 8 →
      (changePassword db cmp hash (some su) cur npw).1 =
        ⟨400, false, some "Password must be at least 8 characters long", none⟩) := by
  refine ⟨?_, ?_, ?_⟩
  · intro user hfind hlen hcmp hrt
    have hred : changePassword db cmp hash (some su) cur npw =
        (⟨200, true, none, some "Password changed successfully"⟩,
          logActivity
            (setTableOf db su.role
              (setPassword (tableOf db su.role) su.id (hash npw)))
            su.role su.id "password_changed" "",
          some { su with mustChangePassword := false }) := by
      rw [changePassword]
      simp [hcur, hnpw0, Nat.not_lt.mpr hlen, hfind, hcmp]
    rw [hred]
    refine ⟨rfl, ?_, rfl⟩
    intro u' hu' hid
    rw [tableOf_logActivity, tableOf_setTableOf] at hu'
    have h := setPassword_mem (tableOf db su.role) su.id (hash npw) u' hu' hid
    exact ⟨h.1, h.1 ▸ hrt, h.2⟩
  · intro user hfind hlen hcmp
    rw [changePassword]
    simp [hcur, hnpw0, Nat.not_lt.mpr hlen, hfind, hcmp]
  · intro hlen
    rw [changePassword]
    simp [hcur, hnpw0, hlen]

/-- Witness for C7 on the fixture store: `stuW` (whose session still has
`mustChangePassword = true`) changes `Student@123` to `NewPass1!`. -/
theorem changePassword_spec_witness :
    ((changePassword dbW cmpW hashW (some sessW) "Student@123" "NewPass1!").1 =
        ⟨200, true, none, some "Password changed successfully"⟩ ∧
      (∀ u' ∈ tableOf (changePassword dbW cmpW hashW (some sessW) "Student@123" "NewPass1!").2.1 sessW.role,
        u'.id = sessW.id →
          u'.password_hash = hashW "NewPass1!" ∧
          cmpW "NewPass1!" u'.password_hash = true ∧
          u'.must_change_password = false) ∧
      (changePassword dbW cmpW hashW (some sessW) "Student@123" "NewPass1!").2.2 =
        some { sessW with mustChangePassword := false }) ∧
    (changePassword dbW cmpW hashW (some sessW) "WrongPass9" "NewPass1!").1 =
      ⟨401, false, some "Current password is incorrect", none⟩ ∧
    (changePassword dbW cmpW hashW (some sessW) "Student@123" "short").1 =
      ⟨400, false, some "Password must be at least 8 characters long", none⟩ :=
  ⟨(changePassword_spec dbW cmpW hashW sessW "Student@123" "NewPass1!"
      (by decide) (by decide)).1 stuW (by decide) (by decide) (by decide) (by decide),
    (changePassword_spec dbW cmpW hashW sessW "WrongPass9" "NewPass1!"
      (by decide) (by decide)).2.1 stuW (by decide) (by decide) (by decide),
    (changePassword_spec dbW cmpW hashW sessW "Student@123" "short"
      (by decide) (by decide)).2.2 (by decide)⟩

/-! ### Helper lemmas for the verify-otp flow -/

lemma mem_otpCandidates (db : DB) (role : String) (uid now : Nat)
    (t : OTPToken) :
    t ∈ otpCandidates db role uid now ↔
      t ∈ db.otp_tokens ∧ t.user_type = role ∧ t.user_id = uid ∧
        t.used = false ∧ now < t.expires_at := by
  rw [otpCandidates, List.mem_insertionSort, List.mem_filter]
  simp [and_assoc]

lemma exists_otpCandidates_iff (db : DB) (role : String) (uid now : Nat)
    (cmp : String → String → Bool) (otp : String) :
    (∃ t ∈ otpCandidates db role uid now, cmp otp t.otp_code_hash = true) ↔
      ∃ t ∈ db.otp_tokens, t.user_type = role ∧ t.user_id = uid ∧
        t.used = false ∧ now < t.expires_at ∧ cmp otp t.otp_code_hash = true := by
  constructor
  · rintro ⟨t, ht, hcmp⟩
    rcases (mem_otpCandidates db role uid now t).mp ht with ⟨h1, h2, h3, h4, h5⟩
    exact ⟨t, h1, h2, h3, h4, h5, hcmp⟩
  · rintro ⟨t, h1, h2, h3, h4, h5, hcmp⟩
    exact ⟨t, (mem_otpCandidates db role uid now t).mpr ⟨h1, h2, h3, h4, h5⟩, hcmp⟩

lemma find?_ext {α : Type} (p q : α → Bool) (h : ∀ a, p a = q a) :
    ∀ l : List α, l.find? p = l.find? q := by
  intro l
  induction l with
  | nil => rfl
  | cons a l ih =>
    rw [List.find?_cons, List.find?_cons, h a]
    cases q a <;> simp [ih]

lemma setPasswordRecovery_otp_tokens (db : DB) (role : String) (uid : Nat)
    (h : String) :
    (setPasswordRecovery db role uid h).otp_tokens = db.otp_tokens := by
  by_cases hr : (role == "teacher") = true <;> simp [setPasswordRecovery, hr]

lemma logActivity_otp_tokens (db : DB) (ut : String) (uid : Nat)
    (action details : String) :
    (logActivity db ut uid action details).otp_tokens = db.otp_tokens := rfl

lemma lookupRecovery_eq_of_tables (db db' : DB)
    (h1 : db'.teachers = db.teachers) (h2 : db'.students = db.students)
    (role identifier : String) :
    lookupRecovery db' role identifier = lookupRecovery db role identifier := by
  by_cases hr : (role == "teacher") = true <;>
    simp [lookupRecovery, hr, h1, h2]

lemma lookupRecovery_logActivity (db : DB) (ut : String) (uid : Nat)
    (action details role identifier : String) :
    lookupRecovery (logActivity db ut uid action details) role identifier =
      lookupRecovery db role identifier :=
  lookupRecovery_eq_of_tables db _ rfl rfl role identifier

lemma lookupRecovery_otp_update (db : DB) (toks : List OTPToken)
    (role identifier : String) :
    lookupRecovery { db with otp_tokens := toks } role identifier =
      lookupRecovery db role identifier :=
  lookupRecovery_eq_of_tables db _ rfl rfl role identifier

/-- The `loginId` column survives a `setPassword` update, so the recovery
lookup afterwards returns the patched row of the same principal. -/
lemma lookupRecovery_setPasswordRecovery (db : DB) (role identifier : String)
    (uid : Nat) (h : String) :
    lookupRecovery (setPasswordRecovery db role uid h) role identifier =
      (lookupRecovery db role identifier).map (fun u =>
        if u.id == uid then
          { u with password_hash := h, must_change_password := false }
        else u) := by
  have hp : ∀ u : UserRec,
      ((fun v : UserRec => v.loginId == identifier) ∘ (fun v : UserRec =>
        if v.id == uid then
          { v with password_hash := h, must_change_password := false }
        else v)) u = (u.loginId == identifier) := by
    intro u
    by_cases hu : u.id = uid <;> simp [hu]
  by_cases hr : (role == "teacher") = true <;>
    · simp only [lookupRecovery, setPasswordRecovery, hr, if_pos, if_neg,
        Bool.false_eq_true, ite_false, ite_true, findByLoginId, setPassword]
      rw [List.find?_map, find?_ext _ _ hp]

/-- Case analysis of `verify-otp` under valid inputs and a resolved
principal: either no candidate token verifies the code and the flow fails
with a `400` InvalidOTP-class response leaving the store untouched, or the
first matching candidate is consumed, the password is reset and the reset
is logged. -/
lemma verifyOtp_cases (db : DB) (cmp : String → String → Bool)
    (hash : String → String) (now : Nat) (role identifier otp npw : String)
    (user : UserRec)
    (hrole : role = "teacher" ∨ role = "student") (hid : identifier ≠ "")
    (hotp : otp ≠ "") (hnpw : 8 ≤ npw.length)
    (hfound : lookupRecovery db role identifier = some user) :
    ((¬ ∃ t ∈ otpCandidates db role user.id now, cmp otp t.otp_code_hash = true) ∧
      (verifyOtp db cmp hash now role identifier otp npw).1.success = false ∧
      (verifyOtp db cmp hash now role identifier otp npw).1.status = 400 ∧
      ((verifyOtp db cmp hash now role identifier otp npw).1.error =
          some "OTP expired or invalid" ∨
        (verifyOtp db cmp hash now role identifier otp npw).1.error =
          some "Invalid OTP") ∧
      (verifyOtp db cmp hash now role identifier otp npw).2 = db) ∨
    (∃ t, (otpCandidates db role user.id now).find?
        (fun t => cmp otp t.otp_code_hash) = some t ∧
      verifyOtp db cmp hash now role identifier otp npw =
        (⟨200, true, none, some "Password reset successfully"⟩,
          logActivity
            (setPasswordRecovery
              { db with otp_tokens := db.otp_tokens.map (fun x =>
                  if x.id == t.id then { x with used := true } else x) }
              role user.id (hash npw))
            role user.id "password_reset_via_otp" identifier)) := by
  have hnpw0 : npw ≠ "" := by
    intro h
    subst h
    simp [String.length] at hnpw
  have hred : verifyOtp db cmp hash now role identifier otp npw =
      (if (otpCandidates db role user.id now).isEmpty then
        (⟨400, false, some "OTP expired or invalid", none⟩, db)
      else
        match (otpCandidates db role user.id now).find?
            (fun t => cmp otp t.otp_code_hash) with
        | none => (⟨400, false, some "Invalid OTP", none⟩, db)
        | some validToken =>
          (⟨200, true, none, some "Password reset successfully"⟩,
            logActivity
              (setPasswordRecovery
                { db with otp_tokens := db.otp_tokens.map (fun x =>
                    if x.id == validToken.id then { x with used := true } else x) }
                role user.id (hash npw))
              role user.id "password_reset_via_otp" identifier)) := by
    rcases hrole with h | h <;> subst h <;>
      · rw [verifyOtp]
        simp [hid, hotp, hnpw0, Nat.not_lt.mpr hnpw, hfound]
  by_cases hemp : (otpCandidates db role user.id now).isEmpty = true
  · left
    have hnil : otpCandidates db role user.id now = [] :=
      List.isEmpty_iff.mp hemp
    rw [hred, if_pos hemp]
    refine ⟨?_, rfl, rfl, Or.inl rfl, rfl⟩
    rintro ⟨t, ht, _⟩
    rw [hnil] at ht
    exact List.not_mem_nil t ht
  · rw [hred, if_neg hemp]
    cases hfind : (otpCandidates db role user.id now).find?
        (fun t => cmp otp t.otp_code_hash) with
    | none =>
      left
      refine ⟨?_, rfl, rfl, Or.inr rfl, rfl⟩
      rintro ⟨t, ht, hcmp⟩
      have := List.find?_eq_none.mp hfind t ht
      rw [hcmp] at this
      exact this rfl
    | some v => exact Or.inr ⟨v, rfl, rfl⟩

/-! ### C4: verify-otp succeeds exactly on a live matching token -/

/-- C4: with valid inputs (all fields present, `newPassword` of length at
least 8, role `teacher` or `student`) and a resolved principal, verify-otp
succeeds iff some stored token of that `(role, principal)` is unused, has
`expires_at` strictly later than `now`, and its hash verifies the supplied
code; otherwise it fails with an InvalidOTP-class `400` response (message
`"OTP expired or invalid"` or `"Invalid OTP"`) and leaves the store
untouched. In particular a correct code is rejected once `now` reaches the
token's `expires_at` (issued 10 minutes after creation). -/
theorem verifyOtp_success_iff_live_matching_token (db : DB)
    (cmp : String → String → Bool) (hash : String → String) (now : Nat)
    (role identifier otp npw : String) (user : UserRec)
    (hrole : role = "teacher" ∨ role = "student") (hid : identifier ≠ "")
    (hotp : otp ≠ "") (hnpw : 8 ≤ npw.length)
    (hfound : lookupRecovery db role identifier = some user) :
    ((verifyOtp db cmp hash now role identifier otp npw).1.success = true ↔
      ∃ t ∈ db.otp_tokens, t.user_type = role ∧ t.user_id = user.id ∧
        t.used = false ∧ now < t.expires_at ∧ cmp otp t.otp_code_hash = true) ∧
    ((verifyOtp db cmp hash now role identifier otp npw).1.success = false →
      (verifyOtp db cmp hash now role identifier otp npw).1.status = 400 ∧
      ((verifyOtp db cmp hash now role identifier otp npw).1.error =
          some "OTP expired or invalid" ∨
        (verifyOtp db cmp hash now role identifier otp npw).1.error =
          some "Invalid OTP") ∧
      (verifyOtp db cmp hash now role identifier otp npw).2 = db) := by
  rcases verifyOtp_cases db cmp hash now role identifier otp npw user hrole hid
      hotp hnpw hfound with
    ⟨hno, hsf, hst, herr, hdb⟩ | ⟨v, hfind, heq⟩
  · refine ⟨⟨fun h => absurd hsf (by rw [h]; exact fun hc => by cases hc), ?_⟩,
      fun _ => ⟨hst, herr, hdb⟩⟩
    intro hex
    exact absurd ((exists_otpCandidates_iff db role user.id now cmp otp).mpr hex) hno
  · have hs : (verifyOtp db cmp hash now role identifier otp npw).1.success = true := by
      rw [heq]
    refine ⟨⟨fun _ => ?_, fun _ => hs⟩, fun hsf => absurd hs (by rw [hsf]; exact fun hc => by cases hc)⟩
    have hv := List.find?_some hfind
    exact (exists_otpCandidates_iff db role user.id now cmp otp).mp
      ⟨v, List.mem_of_find?_eq_some hfind, hv⟩

/-- Witness for C4 on the fixture store holding the live token `tokW`: the
iff and the failure clause instantiated at `now = 0`. -/
theorem verifyOtp_success_iff_live_matching_token_witness :
    ((verifyOtp dbWtok cmpW hashW 0 "student" "2024001" "123456" "NewPass1!").1.success = true ↔
      ∃ t ∈ dbWtok.otp_tokens, t.user_type = "student" ∧ t.user_id = stuW.id ∧
        t.used = false ∧ 0 < t.expires_at ∧ cmpW "123456" t.otp_code_hash = true) ∧
    ((verifyOtp dbWtok cmpW hashW 0 "student" "2024001" "123456" "NewPass1!").1.success = false →
      (verifyOtp dbWtok cmpW hashW 0 "student" "2024001" "123456" "NewPass1!").1.status = 400 ∧
      ((verifyOtp dbWtok cmpW hashW 0 "student" "2024001" "123456" "NewPass1!").1.error =
          some "OTP expired or invalid" ∨
        (verifyOtp dbWtok cmpW hashW 0 "student" "2024001" "123456" "NewPass1!").1.error =
          some "Invalid OTP") ∧
      (verifyOtp dbWtok cmpW hashW 0 "student" "2024001" "123456" "NewPass1!").2 = dbWtok) :=
  verifyOtp_success_iff_live_matching_token dbWtok cmpW hashW 0 "student"
    "2024001" "123456" "NewPass1!" stuW (Or.inr rfl) (by decide) (by decide)
    (by decide) (by decide)

/-! ### C2: a new forgot-password OTP supersedes prior ones -/

lemma forgotPassword_found_ok (db : DB) (hash : String → String)
    (otp : String) (now newId : Nat) (role identifier : String)
    (user : UserRec)
    (hrole : role = "teacher" ∨ role = "student") (hid : identifier ≠ "")
    (hfound : lookupRecovery db role identifier = some user) :
    forgotPassword db hash otp true now newId role identifier =
      (⟨200, true, none, some "OTP has been sent to your registered email address"⟩,
        logActivity
          { db with otp_tokens := invalidateUnused db.otp_tokens role user.id ++
              [⟨newId, role, user.id, hash otp, now + 10 * 60 * 1000, false, now⟩] }
          role user.id "otp_requested" identifier,
        true) := by
  rcases hrole with h | h <;> subst h <;> simp [forgotPassword, hid, hfound]

lemma forgotPassword_found_fail (db : DB) (hash : String → String)
    (otp : String) (now newId : Nat) (role identifier : String)
    (user : UserRec)
    (hrole : role = "teacher" ∨ role = "student") (hid : identifier ≠ "")
    (hfound : lookupRecovery db role identifier = some user) :
    forgotPassword db hash otp false now newId role identifier =
      (⟨503, false,
        some "Failed to send OTP email. Please contact your administrator.", none⟩,
        { db with otp_tokens := invalidateUnused (invalidateUnused db.otp_tokens role user.id ++ [⟨newId, role, user.id, hash otp, now + 10 * 60 * 1000, false, now⟩]) role user.id },
        true) := by
  rcases hrole with h | h <;> subst h <;> simp [forgotPassword, hid, hfound]

lemma filter_singleton_le_one {α : Type} (p : α → Bool) (a : α) :
    (List.filter p [a]).length ≤ 1 := by
  by_cases h : p a = true <;> simp [h]

/-- C2: when forgot-password issues a new OTP token for a resolved
principal, in the resulting store every unused token of that
`(role, principalId)` is the newly inserted one (all prior unused tokens
were first marked used), so at most one unused token remains, and a
subsequent verify-otp with any code `c` that does not verify against the
new token's hash (in particular the earlier OTP's code, a different draw)
fails with an InvalidOTP-class `400` response. -/
theorem forgotPassword_supersedes_prior (db : DB)
    (cmp : String → String → Bool) (hash hash2 : String → String)
    (otp c npw : String) (emailOk : Bool) (now newId now2 : Nat)
    (role identifier : String) (user : UserRec)
    (hrole : role = "teacher" ∨ role = "student") (hid : identifier ≠ "")
    (hfound : lookupRecovery db role identifier = some user)
    (hc : cmp c (hash otp) = false) (hcne : c ≠ "") (hnpw : 8 ≤ npw.length) :
    (∀ t ∈ (forgotPassword db hash otp emailOk now newId role identifier).2.1.otp_tokens,
      t.user_type = role → t.user_id = user.id → t.used = false →
        t.id = newId ∧ t.otp_code_hash = hash otp) ∧
    countUnusedTokens
      (forgotPassword db hash otp emailOk now newId role identifier).2.1
      role user.id ≤ 1 ∧
    ((verifyOtp (forgotPassword db hash otp emailOk now newId role identifier).2.1
        cmp hash2 now2 role identifier c npw).1.success = false ∧
      (verifyOtp (forgotPassword db hash otp emailOk now newId role identifier).2.1
        cmp hash2 now2 role identifier c npw).1.status = 400) := by
  have key : ∀ db' : DB,
      (forgotPassword db hash otp emailOk now newId role identifier).2.1 = db' →
      db'.teachers = db.teachers → db'.students = db.students →
      (∀ t ∈ db'.otp_tokens, t.user_type = role → t.user_id = user.id →
        t.used = false → t.id = newId ∧ t.otp_code_hash = hash otp) →
      countUnusedTokens db' role user.id ≤ 1 →
        (∀ t ∈ (forgotPassword db hash otp emailOk now newId role identifier).2.1.otp_tokens,
          t.user_type = role → t.user_id = user.id → t.used = false →
            t.id = newId ∧ t.otp_code_hash = hash otp) ∧
        countUnusedTokens
          (forgotPassword db hash otp emailOk now newId role identifier).2.1
          role user.id ≤ 1 ∧
        ((verifyOtp (forgotPassword db hash otp emailOk now newId role identifier).2.1
            cmp hash2 now2 role identifier c npw).1.success = false ∧
          (verifyOtp (forgotPassword db hash otp emailOk now newId role identifier).2.1
            cmp hash2 now2 role identifier c npw).1.status = 400) := by
    intro db' hdb ht hs hall hcount
    rw [hdb]
    refine ⟨hall, hcount, ?_⟩
    have hfound' : lookupRecovery db' role identifier = some user := by
      rw [lookupRecovery_eq_of_tables db db' ht hs role identifier]
      exact hfound
    rcases verifyOtp_cases db' cmp hash2 now2 role identifier c npw user hrole
        hid hcne hnpw hfound' with
      ⟨_, hsf, hst, _, _⟩ | ⟨v, hfind, _⟩
    · exact ⟨hsf, hst⟩
    · exfalso
      have hv := List.find?_some hfind
      have hvmem := (mem_otpCandidates db' role user.id now2 v).mp
        (List.mem_of_find?_eq_some hfind)
      have := hall v hvmem.1 hvmem.2.1 hvmem.2.2.1 hvmem.2.2.2.1
      rw [this.2] at hv
      rw [hc] at hv
      cases hv
  rcases Bool.eq_false_or_eq_true emailOk with he | he <;> subst he
  · refine key
      (logActivity
        { db with otp_tokens := invalidateUnused db.otp_tokens role user.id ++ [⟨newId, role, user.id, hash otp, now + 10 * 60 * 1000, false, now⟩] }
        role user.id "otp_requested" identifier)
      (by rw [forgotPassword_found_ok db hash otp now newId role identifier user hrole hid hfound])
      rfl rfl ?_ ?_
    · intro t htmem hty htid htu
      rcases List.mem_append.mp htmem with h | h
      · exact absurd (invalidateUnused_all_used _ role user.id t h hty htid)
          (by rw [htu]; exact fun hc' => by cases hc')
      · rcases List.mem_singleton.mp h with rfl
        exact ⟨rfl, rfl⟩
    · rw [countUnusedTokens, logActivity_otp_tokens]
      dsimp only
      rw [List.filter_append, List.length_append, countUnused_invalidate]
      simp [filter_singleton_le_one]
  · refine key
      { db with otp_tokens := invalidateUnused (invalidateUnused db.otp_tokens role user.id ++ [⟨newId, role, user.id, hash otp, now + 10 * 60 * 1000, false, now⟩]) role user.id }
      (by rw [forgotPassword_found_fail db hash otp now newId role identifier user hrole hid hfound])
      rfl rfl ?_ ?_
    · intro t htmem hty htid htu
      exact absurd (invalidateUnused_all_used _ role user.id t htmem hty htid)
        (by rw [htu]; exact fun hc' => by cases hc')
    · rw [countUnusedTokens]
      rw [countUnused_invalidate]
      omega

/-- Witness for C2 on the fixture store already holding the live token
`tokW` for code `"123456"`: issuing a fresh OTP `"654321"` leaves the new
token as the only unused one and makes a verify-otp with `"123456"` fail. -/
theorem forgotPassword_supersedes_prior_witness :
    (∀ t ∈ (forgotPassword dbWtok hashW "654321" true 0 2 "student" "2024001").2.1.otp_tokens,
      t.user_type = "student" → t.user_id = stuW.id → t.used = false →
        t.id = 2 ∧ t.otp_code_hash = hashW "654321") ∧
    countUnusedTokens
      (forgotPassword dbWtok hashW "654321" true 0 2 "student" "2024001").2.1
      "student" stuW.id ≤ 1 ∧
    ((verifyOtp (forgotPassword dbWtok hashW "654321" true 0 2 "student" "2024001").2.1
        cmpW hashW 0 "student" "2024001" "123456" "NewPass1!").1.success = false ∧
      (verifyOtp (forgotPassword dbWtok hashW "654321" true 0 2 "student" "2024001").2.1
        cmpW hashW 0 "student" "2024001" "123456" "NewPass1!").1.status = 400) :=
  forgotPassword_supersedes_prior dbWtok cmpW hashW hashW "654321" "123456"
    "NewPass1!" true 0 2 0 "student" "2024001" stuW (Or.inr rfl) (by decide)
    (by decide) (by decide) (by decide) (by decide)

/-! ### C3: a verified OTP cannot be verified twice -/

lemma length_le_one_unique {α : Type} (l : List α) (a b : α)
    (ha : a ∈ l) (hb : b ∈ l) (hne : a ≠ b) : ¬ l.length ≤ 1 := by
  intro hlen
  cases l with
  | nil => exact List.not_mem_nil a ha
  | cons x xs =>
    have hxs : xs = [] := by
      rw [List.length_cons] at hlen
      exact List.length_eq_zero.mp (by omega)
    subst hxs
    rcases List.mem_singleton.mp ha with rfl
    rcases List.mem_singleton.mp hb with rfl
    exact hne rfl

/-- C3: a successful verify-otp marks the matched token used, and the
candidate query only considers `used = false` rows; under the superseding
invariant (at most one unused token for the principal, the state
forgot-password re-establishes on every issuance) a second submission of
the same code — at any later clock and with any store and input otherwise
unchanged — fails with a `400` response. -/
theorem verifyOtp_single_use (db : DB) (cmp : String → String → Bool)
    (hash hash2 : String → String) (now now2 : Nat)
    (role identifier otp npw : String) (user : UserRec)
    (hrole : role = "teacher" ∨ role = "student") (hid : identifier ≠ "")
    (hotp : otp ≠ "") (hnpw : 8 ≤ npw.length)
    (hfound : lookupRecovery db role identifier = some user)
    (hinv : countUnusedTokens db role user.id ≤ 1)
    (hfirst : (verifyOtp db cmp hash now role identifier otp npw).1.success = true) :
    (verifyOtp (verifyOtp db cmp hash now role identifier otp npw).2
      cmp hash2 now2 role identifier otp npw).1.success = false ∧
    (verifyOtp (verifyOtp db cmp hash now role identifier otp npw).2
      cmp hash2 now2 role identifier otp npw).1.status = 400 := by
  rcases verifyOtp_cases db cmp hash now role identifier otp npw user hrole hid
      hotp hnpw hfound with
    ⟨_, hsf, _, _, _⟩ | ⟨v, hfind, heq⟩
  · rw [hfirst] at hsf
    cases hsf
  · have hvprops := (mem_otpCandidates db role user.id now v).mp
      (List.mem_of_find?_eq_some hfind)
    rw [heq]
    dsimp only
    have hfound2 : lookupRecovery
        (logActivity
          (setPasswordRecovery
            { db with otp_tokens := db.otp_tokens.map (fun x =>
                if x.id == v.id then { x with used := true } else x) }
            role user.id (hash npw))
          role user.id "password_reset_via_otp" identifier) role identifier =
        some { user with password_hash := hash npw, must_change_password := false } := by
      rw [lookupRecovery_logActivity, lookupRecovery_setPasswordRecovery,
        lookupRecovery_otp_update, hfound]
      simp
    rcases verifyOtp_cases _ cmp hash2 now2 role identifier otp npw _ hrole hid
        hotp hnpw hfound2 with
      ⟨_, hsf2, hst2, _, _⟩ | ⟨v2, hfind2, _⟩
    · exact ⟨hsf2, hst2⟩
    · exfalso
      have hv2props := (mem_otpCandidates _ role _ now2 v2).mp
        (List.mem_of_find?_eq_some hfind2)
      have hv2mem : v2 ∈ db.otp_tokens.map (fun x =>
          if x.id == v.id then { x with used := true } else x) := by
        have h := hv2props.1
        rw [logActivity_otp_tokens, setPasswordRecovery_otp_tokens] at h
        exact h
      rcases List.mem_map.mp hv2mem with ⟨t0, ht0, rfl⟩
      by_cases hvid : (t0.id == v.id) = true
      · rw [if_pos hvid] at hv2props
        exact absurd hv2props.2.2.2.1 (by exact fun hcc => by cases hcc)
      · rw [if_neg hvid] at hv2props
        have ht0f : t0 ∈ db.otp_tokens.filter (fun t =>
            t.user_type == role && t.user_id == user.id && t.used == false) :=
          List.mem_filter.mpr ⟨ht0, by
            simp [hv2props.2.1, hv2props.2.2.1, hv2props.2.2.2.1]⟩
        have hvf : v ∈ db.otp_tokens.filter (fun t =>
            t.user_type == role && t.user_id == user.id && t.used == false) :=
          List.mem_filter.mpr ⟨hvprops.1, by
            simp [hvprops.2.1, hvprops.2.2.1, hvprops.2.2.2.1]⟩
        have hne : t0 ≠ v := by
          intro h
          rw [h] at hvid
          simp at hvid
        exact length_le_one_unique _ t0 v ht0f hvf hne hinv

/-- Witness for C3 on the fixture store holding `tokW`: the first
submission of `"123456"` succeeds, the immediate resubmission fails. -/
theorem verifyOtp_single_use_witness :
    (verifyOtp (verifyOtp dbWtok cmpW hashW 0 "student" "2024001" "123456" "NewPass1!").2
      cmpW hashW 0 "student" "2024001" "123456" "NewPass1!").1.success = false ∧
    (verifyOtp (verifyOtp dbWtok cmpW hashW 0 "student" "2024001" "123456" "NewPass1!").2
      cmpW hashW 0 "student" "2024001" "123456" "NewPass1!").1.status = 400 :=
  verifyOtp_single_use dbWtok cmpW hashW hashW 0 0 "student" "2024001"
    "123456" "NewPass1!" stuW (Or.inr rfl) (by decide) (by decide) (by decide)
    (by decide) (by decide) (by decide)
